import Mathlib

/-!
Verification of the site generator in src/site/generate.py.

Python strings are modelled as `List Char`; the Python method `str.replace`
(replace all non-overlapping occurrences, scanning left to right) is modelled
by `pyReplace`.  The pure substitution pipelines of the two page generators
are `generate_jbr_content` and `generate_span_content`.  The filesystem layer
(template directory, output directory, stdout) is modelled by `FSState`, and
the entry point `_cli` is a function from an initial `FSState` to a
`PyOutcome`, which records either normal completion or a propagated exception
together with the state at the moment the exception was raised (side effects
performed before the exception persist, as in Python).
-/

set_option maxRecDepth 20000

/-- Fuelled core of Python `str.replace` for a nonempty pattern `p :: ps`:
scan the subject left to right; at each position, if the pattern is a prefix,
emit the replacement and continue after the matched occurrence, otherwise
keep the character and continue.  The fuel only makes the recursion
structural (hence computable by the kernel); it never runs out when it is at
least the subject length (`replFuel_fuel_irrel`). -/
def replFuel (p : Char) (ps repl : List Char) : Nat → List Char → List Char
  | 0, s => s
  | _ + 1, [] => []
  | fuel + 1, c :: rest =>
    if (p :: ps).isPrefixOf (c :: rest) then
      repl ++ replFuel p ps repl fuel (List.drop ps.length rest)
    else
      c :: replFuel p ps repl fuel rest

/-- Scanner of Python `str.replace` for a nonempty pattern, with enough
fuel for the whole subject. -/
def strReplace (p : Char) (ps repl s : List Char) : List Char :=
  replFuel p ps repl s.length s

/-- Python `str.replace`.  For the empty pattern Python inserts the
replacement at every gap; every call site in generate.py uses a nonempty
literal pattern, which is handled by `strReplace`. -/
def pyReplace (pat repl s : List Char) : List Char :=
  match pat with
  | [] => repl ++ s.flatMap (fun c => c :: repl)
  | p :: ps => strReplace p ps repl s

/-- Decidable occurrence test: `occurs pat s = true` iff `pat` occurs as a
contiguous substring of `s` (see `occurs_eq_true_iff`). -/
def occurs (pat : List Char) : List Char → Bool
  | [] => pat.isEmpty
  | c :: rest => pat.isPrefixOf (c :: rest) || occurs pat rest

/-- Number of positions of the subject at which the pattern starts. -/
def countOccurs (pat : List Char) : List Char → Nat
  | [] => 0
  | c :: rest => (if pat.isPrefixOf (c :: rest) then 1 else 0) + countOccurs pat rest

/-! Constants of generate.py (tool versions, lines 19-23). -/

/-- SPAN_BUILD constant of generate.py. -/
def SPAN_BUILD : List Char := "0.11.0.4882".toList

/-- SPAN_DATE constant of generate.py. -/
def SPAN_DATE : List Char := "May 17, 2019".toList

/-- JBR_BUILD constant of generate.py. -/
def JBR_BUILD : List Char := "1.0.beta.4882".toList

/-- JBR_DATE constant of generate.py. -/
def JBR_DATE : List Char := "May 17, 2019".toList

/-- The namedtuple DistrDescriptor of generate.py (line 28). -/
structure DistrDescriptor where
  title : List Char
  suffix : List Char
  folder : List Char

/-- Placeholder literals used by both generators. -/
def TABLE_PH : List Char := "@TABLE@".toList

/-- Placeholder for the build identifier. -/
def BUILD_PH : List Char := "@BUILD@".toList

/-- Placeholder for the release date. -/
def DATE_PH : List Char := "@DATE@".toList

/-- Per-platform filename placeholder, Python format string
"@FILENAME-" followed by the folder key and "@" (line 66). -/
def filenamePlaceholder (folder : List Char) : List Char :=
  "@FILENAME-".toList ++ folder ++ "@".toList

/-- The inner create_tr of generate_jbr_data (lines 36-45): one table row
linking the download URL, labeled with the filename, plus a title cell.  The
Python triple-quoted literal is reproduced verbatim, format slots expanded. -/
def create_tr (dd : DistrDescriptor) (build : List Char) : List Char :=
  let code_base := "https://download.jetbrains.com/biolabs/jbr_browser".toList
  let fname := "jbr-".toList ++ build ++ dd.suffix
  let url := code_base ++ "/".toList ++ dd.folder ++ "/".toList ++ fname
  "\n        <tr>\n            <td> <a href=\"".toList ++ url ++ "\">".toList
    ++ fname ++ "</a></td>\n            <td>".toList ++ dd.title
    ++ "</td>\n        </tr>\n        ".toList

/-- The descriptor list of generate_jbr_data (lines 48-57), in source order:
Windows 64-bit, Windows 32-bit, Mac, Linux. -/
def descrs : List DistrDescriptor :=
  [ ⟨"Windows 64-bit ZIP archive (includes bundled 64-bit Java Runtime)".toList,
      "_x64.zip".toList, "win".toList⟩,
    ⟨"Windows 32-bit ZIP archive (includes bundled 32-bit Java Runtime)".toList,
      "_x86.zip".toList, "win".toList⟩,
    ⟨"Mac installer (includes bundled 64-bit Java Runtime)".toList,
      ".dmg".toList, "mac".toList⟩,
    ⟨"Linux archive (includes bundled 64-bit Java Runtime)".toList,
      ".tar.gz".toList, "linux".toList⟩ ]

/-- The argument substituted for the TABLE placeholder by generate_jbr_data:
the four rows joined by a newline (line 60). -/
def jbrTable : List Char :=
  List.intercalate "\n".toList (descrs.map (fun d => create_tr d JBR_BUILD))

/-- The for-loop over descriptors with the seen_file_names set
(lines 64-69): for each descriptor whose placeholder key was not seen yet,
record it and replace the placeholder by JBR_BUILD followed by the suffix. -/
def substituteFilenames : List DistrDescriptor → List (List Char) → List Char → List Char
  | [], _, content => content
  | dd :: rest, seen_file_names, content =>
    let fname := filenamePlaceholder dd.folder
    if fname ∈ seen_file_names then
      substituteFilenames rest seen_file_names content
    else
      substituteFilenames rest (fname :: seen_file_names)
        (pyReplace fname (JBR_BUILD ++ dd.suffix) content)

/-- Pure substitution pipeline of generate_jbr_data (lines 59-69): replace
TABLE, then BUILD, then DATE, then run the filename loop. -/
def generate_jbr_content (template_html : List Char) : List Char :=
  substituteFilenames descrs []
    (pyReplace DATE_PH JBR_DATE
      (pyReplace BUILD_PH JBR_BUILD
        (pyReplace TABLE_PH jbrTable template_html)))

/-- The inner create_tr of generate_span_data (lines 79-86): the single row
of the SPAN table, format slots expanded with span- build .jar. -/
def create_tr_span (build : List Char) : List Char :=
  let fname := "span-".toList ++ build ++ ".jar".toList
  "\n        <tr>\n            <td> <a href=\"https://download.jetbrains.com/biolabs/span/".toList
    ++ fname ++ "\">".toList ++ fname
    ++ "</a></td>\n            <td> Multi-platform JAR package </td>\n        </tr>\n        ".toList

/-- Pure substitution pipeline of generate_span_data (lines 88-92). -/
def generate_span_content (template_html : List Char) : List Char :=
  pyReplace DATE_PH SPAN_DATE
    (pyReplace BUILD_PH SPAN_BUILD
      (pyReplace TABLE_PH (create_tr_span SPAN_BUILD) template_html))

/-! Filesystem model. -/

/-- Template filename of generate_jbr_data (line 32). -/
def jbrTemplateName : List Char := "jetbrains_research_jbr.html".toList

/-- Template filename of generate_span_data (line 76). -/
def spanTemplateName : List Char := "jetbrains_research_span.html".toList

/-- State of the parts of the filesystem touched by generate.py: whether the
out folder exists, its files, the files next to the script (the templates),
and the lines printed to standard output. -/
structure FSState where
  outDirExists : Bool
  outFiles : List (List Char × List Char)
  srcFiles : List (List Char × List Char)
  stdout : List (List Char)

/-- Look a file up by name. -/
def lookupFile (files : List (List Char × List Char)) (name : List Char) :
    Option (List Char) :=
  match files with
  | [] => none
  | (n, c) :: rest => if n = name then some c else lookupFile rest name

/-- Write a file, overwriting an existing file of the same name. -/
def writeFile (files : List (List Char × List Char)) (name content : List Char) :
    List (List Char × List Char) :=
  match files with
  | [] => [(name, content)]
  | (n, c) :: rest =>
    if n = name then (n, content) :: rest else (n, c) :: writeFile rest name content

/-- The only error kind generate.py can hit in this model: a failing
filesystem access (missing template, missing output directory). -/
inductive PyErr where
  | fileNotFound

/-- Result of running a fragment of the script: normal completion, or an
uncaught exception together with the state at the moment it was raised. -/
inductive PyOutcome where
  | ok (fs : FSState)
  | err (e : PyErr) (fs : FSState)

/-- generate_jbr_data as a filesystem operation: read the template (raising
if absent, before any output file is opened), then write the substituted
content to the out folder under the template basename (lines 30-71). -/
def generate_jbr_data (fs : FSState) : PyOutcome :=
  match lookupFile fs.srcFiles jbrTemplateName with
  | none => .err .fileNotFound fs
  | some template_html =>
    if fs.outDirExists then
      .ok { fs with
        outFiles := writeFile fs.outFiles jbrTemplateName (generate_jbr_content template_html) }
    else
      .err .fileNotFound fs

/-- generate_span_data as a filesystem operation (lines 74-92). -/
def generate_span_data (fs : FSState) : PyOutcome :=
  match lookupFile fs.srcFiles spanTemplateName with
  | none => .err .fileNotFound fs
  | some template_html =>
    if fs.outDirExists then
      .ok { fs with
        outFiles := writeFile fs.outFiles spanTemplateName (generate_span_content template_html) }
    else
      .err .fileNotFound fs

/-- Lines 96-98 of _cli: if the out folder exists, shutil.rmtree removes it
with everything beneath it; then os.mkdir creates it fresh and empty. -/
def prepare_out_folder (fs : FSState) : FSState :=
  { (if fs.outDirExists then { fs with outDirExists := false, outFiles := [] } else fs) with
    outDirExists := true, outFiles := [] }

/-- Append one line to standard output. -/
def print_line (fs : FSState) (l : List Char) : FSState :=
  { fs with stdout := fs.stdout ++ [l] }

/-- First progress line printed by _cli. -/
def line1 : List Char := "Creating JetBrains Research JBR page".toList

/-- Second progress line printed by _cli. -/
def line2 : List Char := "Creating JetBrains Research SPAN page".toList

/-- Completion line printed by _cli. -/
def line3 : List Char := "Done".toList

/-- The entry point _cli (lines 95-106), in source order: prepare the out
folder, print the JBR progress line, run the JBR generator, print the SPAN
progress line, run the SPAN generator, print Done.  An exception propagates
immediately, keeping the side effects performed so far. -/
def _cli (fs0 : FSState) : PyOutcome :=
  let fs1 := prepare_out_folder fs0
  let fs2 := print_line fs1 line1
  match generate_jbr_data fs2 with
  | .err e fsE => .err e fsE
  | .ok fs3 =>
    let fs4 := print_line fs3 line2
    match generate_span_data fs4 with
    | .err e fsE => .err e fsE
    | .ok fs5 => .ok (print_line fs5 line3)

/-- Conditions under which a substitution pass cannot leave or recreate an
occurrence of `pat`: the pattern starts and ends with the marker character
(at sign), the replacement does not contain the marker, and the replacement
is at least as long as the pattern. -/
def goodRepl (pat repl : List Char) : Prop :=
  pat.head? = some '@' ∧ pat.getLast? = some '@' ∧ '@' ∉ repl ∧
    pat.length ≤ repl.length

instance (pat repl : List Char) : Decidable (goodRepl pat repl) := by
  unfold goodRepl
  infer_instance

/-! Lemmas about the replacement scanner. -/

theorem replFuel_nil (p : Char) (ps repl : List Char) : ∀ f,
    replFuel p ps repl f [] = [] := by
  intro f
  cases f <;> rfl

theorem replFuel_fuel_irrel (p : Char) (ps repl : List Char) : ∀ f1 f2 (s : List Char),
    s.length ≤ f1 → s.length ≤ f2 →
    replFuel p ps repl f1 s = replFuel p ps repl f2 s := by
  intro f1
  induction f1 with
  | zero =>
    intro f2 s h1 h2
    have hs : s = [] := List.eq_nil_of_length_eq_zero (Nat.le_zero.mp h1)
    subst hs
    rw [replFuel_nil, replFuel_nil]
  | succ f ih =>
    intro f2 s h1 h2
    cases s with
    | nil => rw [replFuel_nil, replFuel_nil]
    | cons c rest =>
      cases f2 with
      | zero => simp at h2
      | succ g =>
        have hr1 : rest.length ≤ f := by simpa using h1
        have hr2 : rest.length ≤ g := by simpa using h2
        by_cases h : (p :: ps).isPrefixOf (c :: rest) = true
        · simp only [replFuel, if_pos h]
          rw [ih g (List.drop ps.length rest) (by rw [List.length_drop]; omega)
            (by rw [List.length_drop]; omega)]
        · simp only [replFuel, if_neg h]
          rw [ih g rest hr1 hr2]

theorem strReplace_nil (p : Char) (ps repl : List Char) :
    strReplace p ps repl [] = [] := rfl

theorem strReplace_cons (p : Char) (ps repl : List Char) (c : Char) (rest : List Char) :
    strReplace p ps repl (c :: rest) =
      if (p :: ps).isPrefixOf (c :: rest) then
        repl ++ strReplace p ps repl (List.drop ps.length rest)
      else
        c :: strReplace p ps repl rest := by
  show replFuel p ps repl (rest.length + 1) (c :: rest) = _
  by_cases h : (p :: ps).isPrefixOf (c :: rest) = true
  · simp only [replFuel, if_pos h]
    rw [replFuel_fuel_irrel p ps repl rest.length (List.drop ps.length rest).length
      (List.drop ps.length rest) (by rw [List.length_drop]; omega) (Nat.le_refl _)]
    rfl
  · simp only [replFuel, if_neg h]
    rfl

theorem isPrefixOf_eq_true_iff (l₁ l₂ : List Char) :
    l₁.isPrefixOf l₂ = true ↔ l₁ <+: l₂ := by
  induction l₁ generalizing l₂ with
  | nil => simp [List.isPrefixOf]
  | cons a as ih =>
    cases l₂ with
    | nil => simp [List.isPrefixOf]
    | cons b bs =>
      simp [List.isPrefixOf, List.cons_prefix_cons, ih, Bool.and_eq_true, beq_iff_eq]

theorem occurs_eq_true_iff (pat : List Char) : ∀ s : List Char,
    occurs pat s = true ↔ pat <:+: s := by
  intro s
  induction s with
  | nil =>
    simp [occurs, List.isEmpty_iff]
  | cons c rest ih =>
    simp [occurs, Bool.or_eq_true, isPrefixOf_eq_true_iff, ih, List.infix_cons_iff]

theorem occurs_append_left (pat : List Char) (a : Char) (hh : pat.head? = some a)
    (repl : List Char) (ha : a ∉ repl) (t : List Char) (ht : occurs pat t = false) :
    occurs pat (repl ++ t) = false := by
  induction repl with
  | nil => simpa using ht
  | cons r rs ih =>
    have har : a ≠ r := fun he => ha (he ▸ List.mem_cons_self r rs)
    have ha' : a ∉ rs := fun hm => ha (List.mem_cons_of_mem r hm)
    rw [List.cons_append, occurs, Bool.or_eq_false_iff]
    refine ⟨?_, ih ha'⟩
    rw [Bool.eq_false_iff]
    intro htrue
    have hpre := (isPrefixOf_eq_true_iff _ _).mp htrue
    cases pat with
    | nil => simp at hh
    | cons p pt =>
      have hp : p = a := by simpa using hh
      have := (List.cons_prefix_cons.mp hpre).1
      exact har (by rw [← hp, this])

theorem occurs_drop_of_eq_false (pat : List Char) : ∀ l : List Char,
    occurs pat l = false → ∀ n, occurs pat (List.drop n l) = false := by
  intro l
  induction l with
  | nil => intro h n; simpa using h
  | cons c rest ih =>
    intro h n
    cases n with
    | zero => exact h
    | succ n =>
      rw [List.drop_succ_cons]
      rw [occurs, Bool.or_eq_false_iff] at h
      exact ih h.2 n

theorem mem_of_getLast_opt (l : List Char) (a : Char) (h : l.getLast? = some a) :
    a ∈ l := by
  induction l with
  | nil => simp at h
  | cons c rest ih =>
    cases rest with
    | nil =>
      have : c = a := by simpa using h
      simp [this]
    | cons d r2 =>
      rw [List.getLast?_cons_cons] at h
      exact List.mem_cons_of_mem c (ih h)

theorem getLast_opt_drop_of_lt (l : List Char) : ∀ m, m < l.length →
    (List.drop m l).getLast? = l.getLast? := by
  induction l with
  | nil => intro m hm; simp at hm
  | cons c rest ih =>
    intro m hm
    cases m with
    | zero => rfl
    | succ m =>
      rw [List.drop_succ_cons]
      have hm' : m < rest.length := by simpa using hm
      rw [ih m hm']
      cases rest with
      | nil => simp at hm'
      | cons d r2 => rw [List.getLast?_cons_cons]

theorem drop_eq_cons_drop (l : List Char) : ∀ m, m < l.length →
    ∃ x, List.drop m l = x :: List.drop (m + 1) l := by
  induction l with
  | nil => intro m hm; simp at hm
  | cons c rest ih =>
    intro m hm
    cases m with
    | zero => exact ⟨c, rfl⟩
    | succ m =>
      have hm' : m < rest.length := by simpa using hm
      obtain ⟨x, hx⟩ := ih m hm'
      exact ⟨x, by simpa [List.drop_succ_cons] using hx⟩

/-- Transfer of pattern-tail prefixes back through the scanner: if some tail
`List.drop m pat1` of a pattern that ends with the marker is a prefix of the
scanner output, it was already a prefix of the scanner input.  Needs the
replacement to be free of the marker and at least as long as the pattern. -/
theorem drop_prefix_strReplace (p : Char) (ps repl pat1 : List Char) (b : Char)
    (hlast : pat1.getLast? = some b) (hb : b ∉ repl)
    (hlen : pat1.length ≤ repl.length) (s : List Char) :
    ∀ m, m < pat1.length → List.drop m pat1 <+: strReplace p ps repl s →
      List.drop m pat1 <+: s := by
  induction s with
  | nil =>
    intro m hm hpre
    rw [strReplace_nil] at hpre
    have h0 : List.drop m pat1 = [] := List.prefix_nil.mp hpre
    have h1 : pat1.length - m = 0 := by
      rw [← List.length_drop, h0]; rfl
    omega
  | cons c rest ih =>
    intro m hm hpre
    rw [strReplace_cons] at hpre
    by_cases h : (p :: ps).isPrefixOf (c :: rest) = true
    · rw [if_pos h] at hpre
      exfalso
      have hq : List.drop m pat1 <+: repl :=
        List.prefix_of_prefix_length_le hpre (List.prefix_append _ _)
          (by rw [List.length_drop]; omega)
      have hla : (List.drop m pat1).getLast? = some b := by
        rw [getLast_opt_drop_of_lt _ _ hm]; exact hlast
      exact hb (hq.subset (mem_of_getLast_opt _ _ hla))
    · rw [if_neg h] at hpre
      obtain ⟨x, hx⟩ := drop_eq_cons_drop pat1 m hm
      rw [hx] at hpre ⊢
      rw [List.cons_prefix_cons] at hpre ⊢
      obtain ⟨hc, hrest⟩ := hpre
      refine ⟨hc, ?_⟩
      by_cases hm1 : m + 1 < pat1.length
      · exact ih (m + 1) hm1 hrest
      · have hnil : List.drop (m + 1) pat1 = [] := List.drop_eq_nil_of_le (by omega)
        rw [hnil]
        exact ⟨rest, rfl⟩

/-- After replacing a pattern that starts and ends with the marker by a
marker-free replacement at least as long, the pattern no longer occurs. -/
theorem occurs_strReplace_self (p : Char) (ps repl : List Char) (b : Char)
    (hp : p ∉ repl) (hlast : (p :: ps).getLast? = some b) (hb : b ∉ repl)
    (hlen : (p :: ps).length ≤ repl.length) (s : List Char) :
    occurs (p :: ps) (strReplace p ps repl s) = false := by
  cases s with
  | nil => rw [strReplace_nil]; rfl
  | cons c rest =>
    rw [strReplace_cons]
    by_cases h : (p :: ps).isPrefixOf (c :: rest) = true
    · rw [if_pos h]
      exact occurs_append_left (p :: ps) p rfl repl hp _
        (occurs_strReplace_self p ps repl b hp hlast hb hlen (List.drop ps.length rest))
    · rw [if_neg h]
      have IH := occurs_strReplace_self p ps repl b hp hlast hb hlen rest
      rw [occurs, Bool.or_eq_false_iff]
      refine ⟨?_, IH⟩
      rw [Bool.eq_false_iff]
      intro htrue
      have hstep : strReplace p ps repl (c :: rest) = c :: strReplace p ps repl rest := by
        rw [strReplace_cons, if_neg h]
      have hpre2 : List.drop 0 (p :: ps) <+: strReplace p ps repl (c :: rest) := by
        rw [List.drop_zero, hstep]
        exact (isPrefixOf_eq_true_iff _ _).mp htrue
      have hres := drop_prefix_strReplace p ps repl (p :: ps) b hlast hb hlen
        (c :: rest) 0 (by simp) hpre2
      rw [List.drop_zero] at hres
      exact h ((isPrefixOf_eq_true_iff _ _).mpr hres)
termination_by s.length
decreasing_by
  all_goals simp [List.length_drop]
  all_goals omega

/-- Replacing some pattern cannot create an occurrence of an absent pattern
`pat1` that starts and ends with the marker, when the replacement is
marker-free and at least as long as `pat1`. -/
theorem occurs_strReplace_other (p : Char) (ps repl pat1 : List Char) (a b : Char)
    (hh : pat1.head? = some a) (ha : a ∉ repl)
    (hlast : pat1.getLast? = some b) (hb : b ∉ repl)
    (hlen : pat1.length ≤ repl.length) (s : List Char) :
    occurs pat1 s = false → occurs pat1 (strReplace p ps repl s) = false := by
  cases s with
  | nil => intro hs; rw [strReplace_nil]; exact hs
  | cons c rest =>
    intro hs
    rw [occurs, Bool.or_eq_false_iff] at hs
    obtain ⟨hs1, hs2⟩ := hs
    rw [strReplace_cons]
    by_cases h : (p :: ps).isPrefixOf (c :: rest) = true
    · rw [if_pos h]
      have hdrop : occurs pat1 (List.drop ps.length rest) = false :=
        occurs_drop_of_eq_false pat1 rest hs2 ps.length
      exact occurs_append_left pat1 a hh repl ha _
        (occurs_strReplace_other p ps repl pat1 a b hh ha hlast hb hlen
          (List.drop ps.length rest) hdrop)
    · rw [if_neg h]
      have IH := occurs_strReplace_other p ps repl pat1 a b hh ha hlast hb hlen rest hs2
      rw [occurs, Bool.or_eq_false_iff]
      refine ⟨?_, IH⟩
      rw [Bool.eq_false_iff]
      intro htrue
      have hstep : strReplace p ps repl (c :: rest) = c :: strReplace p ps repl rest := by
        rw [strReplace_cons, if_neg h]
      have hpos : 0 < pat1.length := by
        cases pat1 with
        | nil => simp at hh
        | cons q qs => simp
      have hpre2 : List.drop 0 pat1 <+: strReplace p ps repl (c :: rest) := by
        rw [List.drop_zero, hstep]
        exact (isPrefixOf_eq_true_iff _ _).mp htrue
      have hres := drop_prefix_strReplace p ps repl pat1 b hlast hb hlen
        (c :: rest) 0 hpos hpre2
      rw [List.drop_zero] at hres
      have : pat1.isPrefixOf (c :: rest) = true := (isPrefixOf_eq_true_iff _ _).mpr hres
      rw [hs1] at this
      exact Bool.false_ne_true this
termination_by s.length
decreasing_by
  all_goals simp [List.length_drop]
  all_goals omega

theorem strReplace_eq_self (p : Char) (ps repl : List Char) : ∀ s : List Char,
    occurs (p :: ps) s = false → strReplace p ps repl s = s := by
  intro s
  induction s with
  | nil => intro h; exact strReplace_nil p ps repl
  | cons c rest ih =>
    intro h
    rw [occurs, Bool.or_eq_false_iff] at h
    rw [strReplace_cons, if_neg (by simp [h.1]), ih h.2]

/-! The same facts at the level of pyReplace. -/

theorem occurs_pyReplace_self (pat repl : List Char) (hg : goodRepl pat repl)
    (s : List Char) : occurs pat (pyReplace pat repl s) = false := by
  obtain ⟨hh, hl, hr, hlen⟩ := hg
  cases pat with
  | nil => simp at hh
  | cons p ps =>
    have hp : p = '@' := by simpa using hh
    subst hp
    exact occurs_strReplace_self '@' ps repl '@' hr hl hr hlen s

theorem occurs_pyReplace_other (pat2 repl pat1 : List Char) (h2 : pat2 ≠ [])
    (hg : goodRepl pat1 repl) (s : List Char) (hs : occurs pat1 s = false) :
    occurs pat1 (pyReplace pat2 repl s) = false := by
  obtain ⟨hh, hl, hr, hlen⟩ := hg
  cases pat2 with
  | nil => exact absurd rfl h2
  | cons p ps =>
    exact occurs_strReplace_other p ps repl pat1 '@' '@' hh hr hl hr hlen s hs

theorem pyReplace_eq_self (pat repl s : List Char) (h0 : pat ≠ [])
    (h : occurs pat s = false) : pyReplace pat repl s = s := by
  cases pat with
  | nil => exact absurd rfl h0
  | cons p ps => exact strReplace_eq_self p ps repl s h

/-! Unfolding helpers for the concrete pipeline and the entry point. -/

/-- Unfolding of the filename loop on the concrete descriptor list: each of
the three distinct folder keys is substituted exactly once; for the shared
key win the first descriptor (Windows 64-bit) supplies the value, and the
Windows 32-bit suffix is skipped by the seen_file_names set. -/
theorem substituteFilenames_eq (c : List Char) :
    substituteFilenames descrs [] c =
      pyReplace (filenamePlaceholder "linux".toList) (JBR_BUILD ++ ".tar.gz".toList)
        (pyReplace (filenamePlaceholder "mac".toList) (JBR_BUILD ++ ".dmg".toList)
          (pyReplace (filenamePlaceholder "win".toList) (JBR_BUILD ++ "_x64.zip".toList) c)) :=
  rfl

theorem prepare_eq (fs : FSState) :
    prepare_out_folder fs = ⟨true, [], fs.srcFiles, fs.stdout⟩ := by
  unfold prepare_out_folder
  by_cases h : fs.outDirExists = true
  · rw [if_pos h]
  · rw [if_neg h]

theorem cli_ok (fs : FSState) (t1 t2 : List Char)
    (h1 : lookupFile fs.srcFiles jbrTemplateName = some t1)
    (h2 : lookupFile fs.srcFiles spanTemplateName = some t2) :
    _cli fs = PyOutcome.ok ⟨true,
      [(jbrTemplateName, generate_jbr_content t1),
        (spanTemplateName, generate_span_content t2)],
      fs.srcFiles, fs.stdout ++ [line1, line2, line3]⟩ := by
  have hne : ¬(jbrTemplateName = spanTemplateName) := by decide
  unfold _cli
  rw [prepare_eq]
  simp [print_line, generate_jbr_data, generate_span_data, writeFile, h1, h2, hne]

theorem cli_err_jbr (fs : FSState) (h : lookupFile fs.srcFiles jbrTemplateName = none) :
    _cli fs = PyOutcome.err PyErr.fileNotFound ⟨true, [], fs.srcFiles, fs.stdout ++ [line1]⟩ := by
  unfold _cli
  rw [prepare_eq]
  simp [print_line, generate_jbr_data, h]

theorem cli_err_span (fs : FSState) (t1 : List Char)
    (h1 : lookupFile fs.srcFiles jbrTemplateName = some t1)
    (h2 : lookupFile fs.srcFiles spanTemplateName = none) :
    _cli fs = PyOutcome.err PyErr.fileNotFound
      ⟨true, [(jbrTemplateName, generate_jbr_content t1)], fs.srcFiles,
        fs.stdout ++ [line1, line2]⟩ := by
  unfold _cli
  rw [prepare_eq]
  simp [print_line, generate_jbr_data, generate_span_data, writeFile, h1, h2]

/-! Claim theorems. -/

/-- C1: for every template string containing each recognized placeholder
(TABLE, BUILD, DATE) at least once, the JBR and SPAN generator outputs
contain zero occurrences of the BUILD, DATE or TABLE placeholders: every
occurrence is replaced, not just the first. -/
theorem c1_full_substitution (t : List Char)
    (hT : occurs TABLE_PH t = true) (hB : occurs BUILD_PH t = true)
    (hD : occurs DATE_PH t = true) :
    (occurs BUILD_PH (generate_jbr_content t) = false ∧
     occurs DATE_PH (generate_jbr_content t) = false ∧
     occurs TABLE_PH (generate_jbr_content t) = false) ∧
    (occurs BUILD_PH (generate_span_content t) = false ∧
     occurs DATE_PH (generate_span_content t) = false ∧
     occurs TABLE_PH (generate_span_content t) = false) := by
  have hjbr : generate_jbr_content t =
      pyReplace (filenamePlaceholder "linux".toList) (JBR_BUILD ++ ".tar.gz".toList)
        (pyReplace (filenamePlaceholder "mac".toList) (JBR_BUILD ++ ".dmg".toList)
          (pyReplace (filenamePlaceholder "win".toList) (JBR_BUILD ++ "_x64.zip".toList)
            (pyReplace DATE_PH JBR_DATE
              (pyReplace BUILD_PH JBR_BUILD
                (pyReplace TABLE_PH jbrTable t))))) := by
    unfold generate_jbr_content
    rw [substituteFilenames_eq]
  have hspan : generate_span_content t =
      pyReplace DATE_PH SPAN_DATE
        (pyReplace BUILD_PH SPAN_BUILD
          (pyReplace TABLE_PH (create_tr_span SPAN_BUILD) t)) := rfl
  rw [hjbr, hspan]
  have jT1 : occurs TABLE_PH (pyReplace TABLE_PH jbrTable t) = false :=
    occurs_pyReplace_self TABLE_PH jbrTable (by decide) t
  have jT2 := occurs_pyReplace_other BUILD_PH JBR_BUILD TABLE_PH (by decide) (by decide) _ jT1
  have jT3 := occurs_pyReplace_other DATE_PH JBR_DATE TABLE_PH (by decide) (by decide) _ jT2
  have jT4 := occurs_pyReplace_other (filenamePlaceholder "win".toList)
    (JBR_BUILD ++ "_x64.zip".toList) TABLE_PH (by decide) (by decide) _ jT3
  have jT5 := occurs_pyReplace_other (filenamePlaceholder "mac".toList)
    (JBR_BUILD ++ ".dmg".toList) TABLE_PH (by decide) (by decide) _ jT4
  have jT6 := occurs_pyReplace_other (filenamePlaceholder "linux".toList)
    (JBR_BUILD ++ ".tar.gz".toList) TABLE_PH (by decide) (by decide) _ jT5
  have jB1 : occurs BUILD_PH (pyReplace BUILD_PH JBR_BUILD
      (pyReplace TABLE_PH jbrTable t)) = false :=
    occurs_pyReplace_self BUILD_PH JBR_BUILD (by decide) _
  have jB2 := occurs_pyReplace_other DATE_PH JBR_DATE BUILD_PH (by decide) (by decide) _ jB1
  have jB3 := occurs_pyReplace_other (filenamePlaceholder "win".toList)
    (JBR_BUILD ++ "_x64.zip".toList) BUILD_PH (by decide) (by decide) _ jB2
  have jB4 := occurs_pyReplace_other (filenamePlaceholder "mac".toList)
    (JBR_BUILD ++ ".dmg".toList) BUILD_PH (by decide) (by decide) _ jB3
  have jB5 := occurs_pyReplace_other (filenamePlaceholder "linux".toList)
    (JBR_BUILD ++ ".tar.gz".toList) BUILD_PH (by decide) (by decide) _ jB4
  have jD1 : occurs DATE_PH (pyReplace DATE_PH JBR_DATE
      (pyReplace BUILD_PH JBR_BUILD (pyReplace TABLE_PH jbrTable t))) = false :=
    occurs_pyReplace_self DATE_PH JBR_DATE (by decide) _
  have jD2 := occurs_pyReplace_other (filenamePlaceholder "win".toList)
    (JBR_BUILD ++ "_x64.zip".toList) DATE_PH (by decide) (by decide) _ jD1
  have jD3 := occurs_pyReplace_other (filenamePlaceholder "mac".toList)
    (JBR_BUILD ++ ".dmg".toList) DATE_PH (by decide) (by decide) _ jD2
  have jD4 := occurs_pyReplace_other (filenamePlaceholder "linux".toList)
    (JBR_BUILD ++ ".tar.gz".toList) DATE_PH (by decide) (by decide) _ jD3
  have sT1 : occurs TABLE_PH (pyReplace TABLE_PH (create_tr_span SPAN_BUILD) t) = false :=
    occurs_pyReplace_self TABLE_PH (create_tr_span SPAN_BUILD) (by decide) t
  have sT2 := occurs_pyReplace_other BUILD_PH SPAN_BUILD TABLE_PH (by decide) (by decide) _ sT1
  have sT3 := occurs_pyReplace_other DATE_PH SPAN_DATE TABLE_PH (by decide) (by decide) _ sT2
  have sB1 : occurs BUILD_PH (pyReplace BUILD_PH SPAN_BUILD
      (pyReplace TABLE_PH (create_tr_span SPAN_BUILD) t)) = false :=
    occurs_pyReplace_self BUILD_PH SPAN_BUILD (by decide) _
  have sB2 := occurs_pyReplace_other DATE_PH SPAN_DATE BUILD_PH (by decide) (by decide) _ sB1
  have sD1 : occurs DATE_PH (pyReplace DATE_PH SPAN_DATE
      (pyReplace BUILD_PH SPAN_BUILD
        (pyReplace TABLE_PH (create_tr_span SPAN_BUILD) t))) = false :=
    occurs_pyReplace_self DATE_PH SPAN_DATE (by decide) _
  exact ⟨⟨jB5, jD4, jT6⟩, ⟨sB2, sD1, sT3⟩⟩

/-- C1 witness: a concrete template containing all three placeholders. -/
theorem c1_full_substitution_witness :
    (occurs TABLE_PH "@TABLE@ @BUILD@ @DATE@".toList = true ∧
     occurs BUILD_PH "@TABLE@ @BUILD@ @DATE@".toList = true ∧
     occurs DATE_PH "@TABLE@ @BUILD@ @DATE@".toList = true) ∧
    ((occurs BUILD_PH (generate_jbr_content "@TABLE@ @BUILD@ @DATE@".toList) = false ∧
      occurs DATE_PH (generate_jbr_content "@TABLE@ @BUILD@ @DATE@".toList) = false ∧
      occurs TABLE_PH (generate_jbr_content "@TABLE@ @BUILD@ @DATE@".toList) = false) ∧
     (occurs BUILD_PH (generate_span_content "@TABLE@ @BUILD@ @DATE@".toList) = false ∧
      occurs DATE_PH (generate_span_content "@TABLE@ @BUILD@ @DATE@".toList) = false ∧
      occurs TABLE_PH (generate_span_content "@TABLE@ @BUILD@ @DATE@".toList) = false)) :=
  ⟨⟨by decide, by decide, by decide⟩,
    c1_full_substitution "@TABLE@ @BUILD@ @DATE@".toList (by decide) (by decide) (by decide)⟩

/-- C2: in the JBR generator each distinct folder key is substituted exactly
once, with the value of the first descriptor in list order having that
folder; since Windows 64-bit precedes Windows 32-bit and both share folder
win, the win placeholder gets the _x64.zip filename and the _x86.zip suffix
is never used for any filename placeholder (first-wins, never last-wins). -/
theorem c2_filename_first_wins :
    (∀ content : List Char,
      substituteFilenames descrs [] content =
        pyReplace "@FILENAME-linux@".toList "1.0.beta.4882.tar.gz".toList
          (pyReplace "@FILENAME-mac@".toList "1.0.beta.4882.dmg".toList
            (pyReplace "@FILENAME-win@".toList "1.0.beta.4882_x64.zip".toList content))) ∧
    substituteFilenames descrs [] "@FILENAME-win@".toList = "1.0.beta.4882_x64.zip".toList ∧
    occurs "_x86".toList (substituteFilenames descrs [] "@FILENAME-win@".toList) = false :=
  ⟨fun content => substituteFilenames_eq content, by decide, by decide⟩

/-- C3: with the given JBR_BUILD, the Windows 64-bit row links to the win
folder download of jbr-1.0.beta.4882_x64.zip with the filename as the
visible link text. -/
theorem c3_win64_link :
    (descrs.map (fun d => create_tr d JBR_BUILD)).head? =
      some ("\n        <tr>\n            <td> <a href=\"https://download.jetbrains.com/biolabs/jbr_browser/win/jbr-1.0.beta.4882_x64.zip\">jbr-1.0.beta.4882_x64.zip</a></td>\n            <td>Windows 64-bit ZIP archive (includes bundled 64-bit Java Runtime)</td>\n        </tr>\n        ".toList) ∧
    occurs "<a href=\"https://download.jetbrains.com/biolabs/jbr_browser/win/jbr-1.0.beta.4882_x64.zip\">jbr-1.0.beta.4882_x64.zip</a>".toList jbrTable = true :=
  ⟨by decide, by decide⟩

/-- C4: the SPAN generator substitutes TABLE with exactly one row whose link
is the span-0.11.0.4882.jar download with the filename as visible text, and
whose second cell reads Multi-platform JAR package. -/
theorem c4_span_single_row :
    create_tr_span SPAN_BUILD =
      "\n        <tr>\n            <td> <a href=\"https://download.jetbrains.com/biolabs/span/span-0.11.0.4882.jar\">span-0.11.0.4882.jar</a></td>\n            <td> Multi-platform JAR package </td>\n        </tr>\n        ".toList ∧
    countOccurs "<tr>".toList (create_tr_span SPAN_BUILD) = 1 ∧
    occurs "<a href=\"https://download.jetbrains.com/biolabs/span/span-0.11.0.4882.jar\">span-0.11.0.4882.jar</a>".toList (create_tr_span SPAN_BUILD) = true ∧
    occurs "<td> Multi-platform JAR package </td>".toList (create_tr_span SPAN_BUILD) = true ∧
    generate_span_content TABLE_PH = create_tr_span SPAN_BUILD :=
  ⟨by decide, by decide, by decide, by decide, by decide⟩

/-- C5: the JBR generator builds exactly four rows, one per descriptor, in
the order Windows 64-bit, Windows 32-bit, Mac, Linux, joined by newlines,
and their join is what replaces the TABLE placeholder. -/
theorem c5_jbr_four_rows :
    (descrs.map (fun d => create_tr d JBR_BUILD)).length = 4 ∧
    jbrTable =
      create_tr ⟨"Windows 64-bit ZIP archive (includes bundled 64-bit Java Runtime)".toList,
        "_x64.zip".toList, "win".toList⟩ JBR_BUILD
      ++ "\n".toList
      ++ create_tr ⟨"Windows 32-bit ZIP archive (includes bundled 32-bit Java Runtime)".toList,
        "_x86.zip".toList, "win".toList⟩ JBR_BUILD
      ++ "\n".toList
      ++ create_tr ⟨"Mac installer (includes bundled 64-bit Java Runtime)".toList,
        ".dmg".toList, "mac".toList⟩ JBR_BUILD
      ++ "\n".toList
      ++ create_tr ⟨"Linux archive (includes bundled 64-bit Java Runtime)".toList,
        ".tar.gz".toList, "linux".toList⟩ JBR_BUILD ∧
    countOccurs "<tr>".toList jbrTable = 4 ∧
    generate_jbr_content TABLE_PH = jbrTable :=
  ⟨by decide, by decide, by decide, by decide⟩

/-- C10: on a template containing none of the six recognized placeholders,
both generators are the identity. -/
theorem c10_no_placeholder_identity (t : List Char)
    (h1 : occurs TABLE_PH t = false) (h2 : occurs BUILD_PH t = false)
    (h3 : occurs DATE_PH t = false)
    (h4 : occurs (filenamePlaceholder "win".toList) t = false)
    (h5 : occurs (filenamePlaceholder "mac".toList) t = false)
    (h6 : occurs (filenamePlaceholder "linux".toList) t = false) :
    generate_jbr_content t = t ∧ generate_span_content t = t := by
  constructor
  · unfold generate_jbr_content
    rw [substituteFilenames_eq]
    rw [pyReplace_eq_self TABLE_PH jbrTable t (by decide) h1]
    rw [pyReplace_eq_self BUILD_PH JBR_BUILD t (by decide) h2]
    rw [pyReplace_eq_self DATE_PH JBR_DATE t (by decide) h3]
    rw [pyReplace_eq_self (filenamePlaceholder "win".toList)
      (JBR_BUILD ++ "_x64.zip".toList) t (by decide) h4]
    rw [pyReplace_eq_self (filenamePlaceholder "mac".toList)
      (JBR_BUILD ++ ".dmg".toList) t (by decide) h5]
    exact pyReplace_eq_self (filenamePlaceholder "linux".toList)
      (JBR_BUILD ++ ".tar.gz".toList) t (by decide) h6
  · unfold generate_span_content
    rw [pyReplace_eq_self TABLE_PH (create_tr_span SPAN_BUILD) t (by decide) h1]
    rw [pyReplace_eq_self BUILD_PH SPAN_BUILD t (by decide) h2]
    exact pyReplace_eq_self DATE_PH SPAN_DATE t (by decide) h3

/-- C10 witness: a concrete placeholder-free template. -/
theorem c10_no_placeholder_identity_witness :
    (occurs TABLE_PH "plain text page".toList = false ∧
     occurs BUILD_PH "plain text page".toList = false ∧
     occurs DATE_PH "plain text page".toList = false ∧
     occurs (filenamePlaceholder "win".toList) "plain text page".toList = false ∧
     occurs (filenamePlaceholder "mac".toList) "plain text page".toList = false ∧
     occurs (filenamePlaceholder "linux".toList) "plain text page".toList = false) ∧
    (generate_jbr_content "plain text page".toList = "plain text page".toList ∧
     generate_span_content "plain text page".toList = "plain text page".toList) :=
  ⟨⟨by decide, by decide, by decide, by decide, by decide, by decide⟩,
    c10_no_placeholder_identity "plain text page".toList (by decide) (by decide)
      (by decide) (by decide) (by decide) (by decide)⟩

/-- C6: the output directory preparer removes the directory when it exists
and recreates it fresh and empty, so a successful full run leaves exactly
the two generated files in it, regardless of stale pre-existing files. -/
theorem c6_output_dir_clean (fs : FSState) (t1 t2 : List Char)
    (h1 : lookupFile fs.srcFiles jbrTemplateName = some t1)
    (h2 : lookupFile fs.srcFiles spanTemplateName = some t2) :
    (prepare_out_folder fs).outFiles = [] ∧
    (prepare_out_folder fs).outDirExists = true ∧
    ∃ fs2, _cli fs = PyOutcome.ok fs2 ∧
      fs2.outFiles = [(jbrTemplateName, generate_jbr_content t1),
        (spanTemplateName, generate_span_content t2)] :=
  ⟨by rw [prepare_eq], by rw [prepare_eq], ⟨_, cli_ok fs t1 t2 h1 h2, rfl⟩⟩

/-- C6 witness: an initial state whose out folder holds a stale file. -/
theorem c6_output_dir_clean_witness :
    lookupFile [(jbrTemplateName, "alpha".toList), (spanTemplateName, "beta".toList)]
      jbrTemplateName = some "alpha".toList ∧
    lookupFile [(jbrTemplateName, "alpha".toList), (spanTemplateName, "beta".toList)]
      spanTemplateName = some "beta".toList ∧
    ((prepare_out_folder ⟨true, [("stale.html".toList, "junk".toList)],
        [(jbrTemplateName, "alpha".toList), (spanTemplateName, "beta".toList)], []⟩).outFiles = [] ∧
     (prepare_out_folder ⟨true, [("stale.html".toList, "junk".toList)],
        [(jbrTemplateName, "alpha".toList), (spanTemplateName, "beta".toList)], []⟩).outDirExists = true ∧
     ∃ fs2, _cli ⟨true, [("stale.html".toList, "junk".toList)],
        [(jbrTemplateName, "alpha".toList), (spanTemplateName, "beta".toList)], []⟩ =
          PyOutcome.ok fs2 ∧
       fs2.outFiles = [(jbrTemplateName, generate_jbr_content "alpha".toList),
         (spanTemplateName, generate_span_content "beta".toList)]) :=
  ⟨by decide, by decide,
    c6_output_dir_clean ⟨true, [("stale.html".toList, "junk".toList)],
        [(jbrTemplateName, "alpha".toList), (spanTemplateName, "beta".toList)], []⟩
      "alpha".toList "beta".toList (by decide) (by decide)⟩

/-- C7: a missing template makes the run raise before writing any output
for that page; when the JBR template is the missing one, the SPAN generator
is never invoked (no SPAN progress line, no output file at all). -/
theorem c7_missing_template_aborts (fs : FSState) :
    (lookupFile fs.srcFiles jbrTemplateName = none →
      _cli fs = PyOutcome.err PyErr.fileNotFound
        ⟨true, [], fs.srcFiles, fs.stdout ++ [line1]⟩) ∧
    (∀ t1, lookupFile fs.srcFiles jbrTemplateName = some t1 →
      lookupFile fs.srcFiles spanTemplateName = none →
      _cli fs = PyOutcome.err PyErr.fileNotFound
        ⟨true, [(jbrTemplateName, generate_jbr_content t1)], fs.srcFiles,
          fs.stdout ++ [line1, line2]⟩) :=
  ⟨fun h => cli_err_jbr fs h, fun t1 h1 h2 => cli_err_span fs t1 h1 h2⟩

/-- C7 witness: one run with the JBR template missing, one with only the
SPAN template missing. -/
theorem c7_missing_template_aborts_witness :
    (lookupFile [("readme".toList, "x".toList)] jbrTemplateName = none ∧
     _cli ⟨true, [], [("readme".toList, "x".toList)], []⟩ =
       PyOutcome.err PyErr.fileNotFound
         ⟨true, [], [("readme".toList, "x".toList)], [line1]⟩) ∧
    (lookupFile [(jbrTemplateName, "tj".toList)] jbrTemplateName = some "tj".toList ∧
     lookupFile [(jbrTemplateName, "tj".toList)] spanTemplateName = none ∧
     _cli ⟨false, [], [(jbrTemplateName, "tj".toList)], []⟩ =
       PyOutcome.err PyErr.fileNotFound
         ⟨true, [(jbrTemplateName, generate_jbr_content "tj".toList)],
           [(jbrTemplateName, "tj".toList)], [line1, line2]⟩) :=
  ⟨⟨by decide,
      (c7_missing_template_aborts ⟨true, [], [("readme".toList, "x".toList)], []⟩).1
        (by decide)⟩,
    ⟨by decide, by decide,
      (c7_missing_template_aborts ⟨false, [], [(jbrTemplateName, "tj".toList)], []⟩).2
        "tj".toList (by decide) (by decide)⟩⟩

/-- C8: the written output files are a deterministic function of the two
template texts and the constants alone: two runs over any two states that
agree on the template contents produce identical output file lists, so
running the whole generation twice produces byte-identical outputs. -/
theorem c8_deterministic_output (fsA fsB : FSState) (t1 t2 : List Char)
    (hA1 : lookupFile fsA.srcFiles jbrTemplateName = some t1)
    (hA2 : lookupFile fsA.srcFiles spanTemplateName = some t2)
    (hB1 : lookupFile fsB.srcFiles jbrTemplateName = some t1)
    (hB2 : lookupFile fsB.srcFiles spanTemplateName = some t2) :
    ∃ fsA2 fsB2, _cli fsA = PyOutcome.ok fsA2 ∧ _cli fsB = PyOutcome.ok fsB2 ∧
      fsA2.outFiles = fsB2.outFiles :=
  ⟨_, _, cli_ok fsA t1 t2 hA1 hA2, cli_ok fsB t1 t2 hB1 hB2, rfl⟩

/-- C8 witness: two states with the same templates but different stale
output, directory status and stdout history. -/
theorem c8_deterministic_output_witness :
    lookupFile [(jbrTemplateName, "T".toList), (spanTemplateName, "U".toList)]
      jbrTemplateName = some "T".toList ∧
    lookupFile [(jbrTemplateName, "T".toList), (spanTemplateName, "U".toList)]
      spanTemplateName = some "U".toList ∧
    ∃ fsA2 fsB2,
      _cli ⟨true, [("stale".toList, "s".toList)],
        [(jbrTemplateName, "T".toList), (spanTemplateName, "U".toList)], []⟩ =
          PyOutcome.ok fsA2 ∧
      _cli ⟨false, [],
        [(jbrTemplateName, "T".toList), (spanTemplateName, "U".toList)],
        ["bootlog".toList]⟩ = PyOutcome.ok fsB2 ∧
      fsA2.outFiles = fsB2.outFiles :=
  ⟨by decide, by decide,
    c8_deterministic_output
      ⟨true, [("stale".toList, "s".toList)],
        [(jbrTemplateName, "T".toList), (spanTemplateName, "U".toList)], []⟩
      ⟨false, [],
        [(jbrTemplateName, "T".toList), (spanTemplateName, "U".toList)],
        ["bootlog".toList]⟩
      "T".toList "U".toList (by decide) (by decide) (by decide) (by decide)⟩

/-- C9 counterexample: the claim puts all printing after both generators
have run, so an aborted run would print nothing; but on a state with no
templates at all, the run aborts inside the JBR generator with the first
progress line already on stdout and the SPAN generator never reached:
printing is interleaved with the generators, not performed after them. -/
theorem c9_counterexample :
    _cli ⟨false, [], [], []⟩ =
      PyOutcome.err PyErr.fileNotFound ⟨true, [], [], [line1]⟩ ∧
    ([line1] : List (List Char)) ≠ [] :=
  ⟨rfl, by simp⟩

/-- C9 amended: the entry point performs its steps in the source order
prepare out folder, print the JBR progress line, run the JBR generator,
print the SPAN progress line, run the SPAN generator, print the completion
line; nothing else is done and no step is skipped or reordered.  Stated as
the complete observable behaviour of the entry point in all three cases. -/
theorem c9_entry_point_order (fs : FSState) :
    (lookupFile fs.srcFiles jbrTemplateName = none →
      _cli fs = PyOutcome.err PyErr.fileNotFound
        ⟨true, [], fs.srcFiles, fs.stdout ++ [line1]⟩) ∧
    (∀ t1, lookupFile fs.srcFiles jbrTemplateName = some t1 →
      lookupFile fs.srcFiles spanTemplateName = none →
      _cli fs = PyOutcome.err PyErr.fileNotFound
        ⟨true, [(jbrTemplateName, generate_jbr_content t1)], fs.srcFiles,
          fs.stdout ++ [line1, line2]⟩) ∧
    (∀ t1 t2, lookupFile fs.srcFiles jbrTemplateName = some t1 →
      lookupFile fs.srcFiles spanTemplateName = some t2 →
      _cli fs = PyOutcome.ok ⟨true,
        [(jbrTemplateName, generate_jbr_content t1),
          (spanTemplateName, generate_span_content t2)],
        fs.srcFiles, fs.stdout ++ [line1, line2, line3]⟩) :=
  ⟨fun h => cli_err_jbr fs h,
    fun t1 h1 h2 => cli_err_span fs t1 h1 h2,
    fun t1 t2 h1 h2 => cli_ok fs t1 t2 h1 h2⟩

/-- C9 witness: the success branch of the amended order theorem at a
concrete state with both templates and a non-empty stdout history. -/
theorem c9_entry_point_order_witness :
    lookupFile [(jbrTemplateName, "p".toList), (spanTemplateName, "q".toList)]
      jbrTemplateName = some "p".toList ∧
    lookupFile [(jbrTemplateName, "p".toList), (spanTemplateName, "q".toList)]
      spanTemplateName = some "q".toList ∧
    _cli ⟨true, [], [(jbrTemplateName, "p".toList), (spanTemplateName, "q".toList)],
        ["start".toList]⟩ =
      PyOutcome.ok ⟨true,
        [(jbrTemplateName, generate_jbr_content "p".toList),
          (spanTemplateName, generate_span_content "q".toList)],
        [(jbrTemplateName, "p".toList), (spanTemplateName, "q".toList)],
        ["start".toList, line1, line2, line3]⟩ :=
  ⟨by decide, by decide,
    (c9_entry_point_order ⟨true, [],
        [(jbrTemplateName, "p".toList), (spanTemplateName, "q".toList)],
        ["start".toList]⟩).2.2 "p".toList "q".toList (by decide) (by decide)⟩
